import Mathlib

/-!
  Verification of `streamlit_app.py` (a Streamlit OCR front-end).

  The script wraps three external native libraries: an OCR engine
  (pytesseract), a PDF rasterizer (pdf2image) and an image-processing
  library (cv2 / PIL).  We embed the script shallowly: images are an
  abstract type `Img`, every external library call is a field of an
  environment `Env Img` returning `Except` (an `.error` models a raised
  Python exception), and each script function is a pure Lean function
  returning its value together with the list of observable UI events
  (warnings, error messages, status texts, progress updates, and the
  library calls it makes) in the order they happen.
-/

/-- The `cv2.ADAPTIVE_THRESH_*` constants used by `cv2.adaptiveThreshold`. -/
inductive AdaptiveMethod where
  | meanC
  | gaussianC
deriving DecidableEq

/-- The `cv2.THRESH_*` constants used by `cv2.adaptiveThreshold`. -/
inductive ThresholdType where
  | binary
  | binaryInv
deriving DecidableEq

/-- The argument tuple passed to `cv2.adaptiveThreshold` after the source
image: maximum value, adaptive method, threshold type, block size and the
constant subtracted from the mean. -/
structure ThresholdArgs where
  maxValue : Nat
  adaptiveMethod : AdaptiveMethod
  thresholdType : ThresholdType
  blockSize : Nat
  c : Int
deriving DecidableEq

/-- Exceptions that `pytesseract.image_to_string` can raise:
`TesseractNotFoundError` or any other exception (carrying its message). -/
inductive OcrErr where
  | tesseractNotFound
  | other (msg : String)
deriving DecidableEq

/-- Observable events of one run: Streamlit UI calls and the calls made
into the external libraries, recorded in order of occurrence. -/
inductive Event (Img : Type) where
  | warn (msg : String)
  | error (msg : String)
  | statusText (msg : String)
  | progressInit
  | progress (v : ℚ)
  | grayscaleCall (input : Img)
  | thresholdCall (args : ThresholdArgs) (input : Img)
  | sharpenCall (input : Img)
  | ocrCall (input : Img)
  | convertCall
deriving DecidableEq

/-- The external libraries the script calls into.  Each call either
returns a value (`.ok`) or raises a Python exception (`.error`). -/
structure Env (Img : Type) where
  convertL : Img → Except String Img
  adaptiveThreshold : ThresholdArgs → Img → Except String Img
  sharpen : Img → Except String Img
  imageToString : Img → Except OcrErr String
  convertFromBytes : List Nat → Except String (List Img)

variable {Img : Type}

/-- Message of the warning in the except-branch of `preprocess_image`. -/
def preprocessWarningMessage (e : String) : String :=
  "An error occurred during image preprocessing: " ++ e

/-- Message of the error shown for `TesseractNotFoundError`. -/
def tesseractNotFoundMessage : String :=
  "Tesseract executable not found."

/-- Message of the error shown for any other OCR exception. -/
def ocrErrorMessage (e : String) : String :=
  "An error occurred during OCR processing: " ++ e

/-- Message of the warning shown when the PDF yields no page images. -/
def emptyPdfWarning : String :=
  "Could not extract any images from the PDF. The PDF might be empty, corrupted, or text-based (not scanned)."

/-- Message of the error shown when PDF-to-image conversion raises. -/
def pdfErrorMessage (e : String) : String :=
  "Error converting PDF to images: " ++ e

/-- The fixed argument tuple the script passes to `cv2.adaptiveThreshold`:
`cv2.adaptiveThreshold(image_np, 255, cv2.ADAPTIVE_THRESH_GAUSSIAN_C,
cv2.THRESH_BINARY, 11, 2)`. -/
def thresholdArgsUsed : ThresholdArgs :=
  { maxValue := 255
    adaptiveMethod := AdaptiveMethod.gaussianC
    thresholdType := ThresholdType.binary
    blockSize := 11
    c := 2 }

/-- Embedding of `preprocess_image` (lines 31-58): inside a `try`, convert
to grayscale (`image_obj.convert("L")`), apply `cv2.adaptiveThreshold`
with the fixed arguments (the `np.array` / `Image.fromarray`
representation conversions are folded into the environment call), then
apply `ImageFilter.SHARPEN`; on any exception, show a warning and return
the original `image_obj`. -/
def preprocess_image (env : Env Img) (image_obj : Img) : Img × List (Event Img) :=
  match env.convertL image_obj with
  | Except.error e =>
      (image_obj, [Event.grayscaleCall image_obj, Event.warn (preprocessWarningMessage e)])
  | Except.ok image =>
      match env.adaptiveThreshold thresholdArgsUsed image with
      | Except.error e =>
          (image_obj,
            [Event.grayscaleCall image_obj, Event.thresholdCall thresholdArgsUsed image,
             Event.warn (preprocessWarningMessage e)])
      | Except.ok image_np =>
          match env.sharpen image_np with
          | Except.error e =>
              (image_obj,
                [Event.grayscaleCall image_obj, Event.thresholdCall thresholdArgsUsed image,
                 Event.sharpenCall image_np, Event.warn (preprocessWarningMessage e)])
          | Except.ok preprocessed_image =>
              (preprocessed_image,
                [Event.grayscaleCall image_obj, Event.thresholdCall thresholdArgsUsed image,
                 Event.sharpenCall image_np])

/-- The successful three-step pipeline of `preprocess_image` as a plain
`Except` chain: grayscale, then adaptive threshold, then sharpen.  It is
`.error` exactly when some step of the `try` block raises. -/
def preprocessSteps (env : Env Img) (image_obj : Img) : Except String Img :=
  match env.convertL image_obj with
  | Except.error e => Except.error e
  | Except.ok image =>
      match env.adaptiveThreshold thresholdArgsUsed image with
      | Except.error e => Except.error e
      | Except.ok image_np => env.sharpen image_np

/-- Embedding of `perform_ocr_on_image` (lines 61-87): preprocess, call
`pytesseract.image_to_string` on the result, return the text; on
`TesseractNotFoundError` or any other exception show an error and return
`None`. -/
def perform_ocr_on_image (env : Env Img) (image_obj : Img) : Option String × List (Event Img) :=
  let p := preprocess_image env image_obj
  match env.imageToString p.1 with
  | Except.ok text => (some text, p.2 ++ [Event.ocrCall p.1])
  | Except.error OcrErr.tesseractNotFound =>
      (none, p.2 ++ [Event.ocrCall p.1, Event.error tesseractNotFoundMessage])
  | Except.error (OcrErr.other e) =>
      (none, p.2 ++ [Event.ocrCall p.1, Event.error (ocrErrorMessage e)])

/-- Python truthiness of the `page_text` value (`Optional[str]`): `None`
and the empty string are falsy, any other string is truthy. -/
def optTruthy : Option String → Bool
  | some s => !(s == "")
  | none => false

/-- The text block the page loop of `perform_ocr_on_pdf` appends for the
page numbered `page_num` (lines 118-123): header plus text when
`page_text` is truthy, the failure placeholder line otherwise. -/
def pageOutput (env : Env Img) (page_num : Nat) (image : Img) : String :=
  let page_text := (perform_ocr_on_image env image).1
  if optTruthy page_text then
    "--- Page " ++ toString page_num ++ " ---\n" ++ page_text.getD "" ++ "\n\n"
  else
    "--- Page " ++ toString page_num ++ " (OCR Failed or No Text Detected) ---\n\n"

/-- The page loop of `perform_ocr_on_pdf` (lines 114-125): for each page,
show the status text, OCR the page, append its block to the accumulated
`extracted_text`, and update the progress bar to `(i + 1) / total_pages`.
`i` is the 0-based loop index, `total` is `total_pages`. -/
def pdfLoop (env : Env Img) (total : Nat) : List Img → Nat → String → String × List (Event Img)
  | [], _, acc => (acc, [])
  | image :: rest, i, acc =>
      let page_num := i + 1
      let r := perform_ocr_on_image env image
      let block := pageOutput env page_num image
      let restRun := pdfLoop env total rest (i + 1) (acc ++ block)
      (restRun.1,
        (Event.statusText ("Processing Page " ++ toString page_num ++ "/" ++ toString total ++ "...")
            :: r.2)
          ++ (Event.progress (((i : ℚ) + 1) / (total : ℚ)) :: restRun.2))

/-- Embedding of `perform_ocr_on_pdf` (lines 89-146): rasterize the PDF
bytes (`convert_from_bytes`); if that raises, show an error and return
`None`; if it yields no images, show a warning and return `None`;
otherwise create the progress bar (`st.progress(0)`), run the page loop
starting from the empty `extracted_text`, show the completion status and
return the accumulated text. -/
def perform_ocr_on_pdf (env : Env Img) (pdf_bytes : List Nat) : Option String × List (Event Img) :=
  match env.convertFromBytes pdf_bytes with
  | Except.error e => (none, [Event.convertCall, Event.error (pdfErrorMessage e)])
  | Except.ok images =>
      if images.isEmpty then
        (none, [Event.convertCall, Event.warn emptyPdfWarning])
      else
        let r := pdfLoop env images.length images 0 ""
        (some r.1,
          Event.convertCall :: Event.progressInit ::
            (r.2 ++ [Event.statusText "PDF Processing Complete."]))

/-- What the result-display logic does with `extracted_text`. -/
inductive DisplayAction where
  | rendered (text : String)
  | warnedNoText
  | nothing
deriving DecidableEq

/-- Python equality test `extracted_text == ""` for an `Optional[str]`
value: `None == ""` is `False` in Python. -/
def pyEqEmptyString : Option String → Bool
  | some s => s == ""
  | none => false

/-- Embedding of the result display (lines 226-231): if `extracted_text`
is not `None`, render it in the text area; elif `extracted_text == ""`,
warn that no text was detected; else do nothing. -/
def displayResult (extracted_text : Option String) : DisplayAction :=
  if extracted_text ≠ none then
    DisplayAction.rendered (extracted_text.getD "")
  else if pyEqEmptyString extracted_text then
    DisplayAction.warnedNoText
  else
    DisplayAction.nothing

/-- All arguments passed to the OCR engine in a trace, in order. -/
def ocrArgs : List (Event Img) → List Img :=
  List.filterMap fun e =>
    match e with
    | Event.ocrCall a => some a
    | _ => none

/-- All progress-bar update values in a trace, in order. -/
def progressValues : List (Event Img) → List ℚ :=
  List.filterMap fun e =>
    match e with
    | Event.progress v => some v
    | _ => none

/-- All adaptive-threshold argument tuples in a trace, in order. -/
def thresholdArgsList : List (Event Img) → List ThresholdArgs :=
  List.filterMap fun e =>
    match e with
    | Event.thresholdCall a _ => some a
    | _ => none

/-- Concatenation of a list of strings, in order. -/
def concatStrings : List String → String
  | [] => ""
  | s :: rest => s ++ concatStrings rest

/-! ### Concrete environments (over `Img := Nat`) used by the witnesses -/

/-- An environment where every external call succeeds and every image
transformation is non-trivial. -/
def envOK : Env Nat where
  convertL := fun x => Except.ok (x + 1)
  adaptiveThreshold := fun _ x => Except.ok (x * 2)
  sharpen := fun x => Except.ok (x + 3)
  imageToString := fun x => Except.ok ("text" ++ toString x)
  convertFromBytes := fun b => Except.ok b

/-- Like `envOK` but OCR raises a generic exception on every image. -/
def envOcrFail : Env Nat where
  convertL := fun x => Except.ok (x + 1)
  adaptiveThreshold := fun _ x => Except.ok (x * 2)
  sharpen := fun x => Except.ok (x + 3)
  imageToString := fun _ => Except.error (OcrErr.other "boom")
  convertFromBytes := fun b => Except.ok b

/-- Like `envOK` but OCR raises only on the image `12`
(the rasterization of page 2 of the 3-page PDF `[10, 11, 12]`
after preprocessing turns page image `11` into `(11 + 1) * 2 + 3 = 27`;
here OCR fails on preprocessed image `(11 + 1) * 2 + 3`). -/
def envOcrFailPage2 : Env Nat where
  convertL := fun x => Except.ok (x + 1)
  adaptiveThreshold := fun _ x => Except.ok (x * 2)
  sharpen := fun x => Except.ok (x + 3)
  imageToString := fun x =>
    if x == 27 then Except.error (OcrErr.other "boom") else Except.ok ("text" ++ toString x)
  convertFromBytes := fun b => Except.ok b

/-- Like `envOK` but grayscale conversion raises on every image. -/
def envPreFail : Env Nat where
  convertL := fun _ => Except.error "gray boom"
  adaptiveThreshold := fun _ x => Except.ok (x * 2)
  sharpen := fun x => Except.ok (x + 3)
  imageToString := fun x => Except.ok ("text" ++ toString x)
  convertFromBytes := fun b => Except.ok b

/-- Like `envOK` but PDF rasterization yields an empty page list. -/
def envEmptyPdf : Env Nat where
  convertL := fun x => Except.ok (x + 1)
  adaptiveThreshold := fun _ x => Except.ok (x * 2)
  sharpen := fun x => Except.ok (x + 3)
  imageToString := fun x => Except.ok ("text" ++ toString x)
  convertFromBytes := fun _ => Except.ok []

/-! ### Helper lemmas about the traces -/

theorem ocrArgs_append (l1 l2 : List (Event Img)) :
    ocrArgs (l1 ++ l2) = ocrArgs l1 ++ ocrArgs l2 :=
  List.filterMap_append l1 l2 _

theorem progressValues_append (l1 l2 : List (Event Img)) :
    progressValues (l1 ++ l2) = progressValues l1 ++ progressValues l2 :=
  List.filterMap_append l1 l2 _

theorem thresholdArgsList_append (l1 l2 : List (Event Img)) :
    thresholdArgsList (l1 ++ l2) = thresholdArgsList l1 ++ thresholdArgsList l2 :=
  List.filterMap_append l1 l2 _

theorem ocrArgs_preprocess (env : Env Img) (img : Img) :
    ocrArgs (preprocess_image env img).2 = [] := by
  unfold preprocess_image
  repeat' split
  all_goals rfl

theorem progressValues_preprocess (env : Env Img) (img : Img) :
    progressValues (preprocess_image env img).2 = [] := by
  unfold preprocess_image
  repeat' split
  all_goals rfl

theorem ocrArgs_image (env : Env Img) (img : Img) :
    ocrArgs (perform_ocr_on_image env img).2 = [(preprocess_image env img).1] := by
  simp only [perform_ocr_on_image]
  split
  · rw [ocrArgs_append, ocrArgs_preprocess]; rfl
  · rw [ocrArgs_append, ocrArgs_preprocess]; rfl
  · rw [ocrArgs_append, ocrArgs_preprocess]; rfl

theorem progressValues_image (env : Env Img) (img : Img) :
    progressValues (perform_ocr_on_image env img).2 = [] := by
  simp only [perform_ocr_on_image]
  split
  · rw [progressValues_append, progressValues_preprocess]; rfl
  · rw [progressValues_append, progressValues_preprocess]; rfl
  · rw [progressValues_append, progressValues_preprocess]; rfl

theorem preprocess_image_of_steps_ok (env : Env Img) (img : Img) (s : Img)
    (h : preprocessSteps env img = Except.ok s) :
    (preprocess_image env img).1 = s := by
  cases h1 : env.convertL img with
  | error e1 => simp [preprocessSteps, h1] at h
  | ok g =>
    cases h2 : env.adaptiveThreshold thresholdArgsUsed g with
    | error e2 => simp [preprocessSteps, h1, h2] at h
    | ok t =>
      cases h3 : env.sharpen t with
      | error e3 => simp [preprocessSteps, h1, h2, h3] at h
      | ok s2 =>
        simp [preprocessSteps, h1, h2, h3] at h
        simp [preprocess_image, h1, h2, h3, h]

theorem preprocess_image_of_steps_error (env : Env Img) (img : Img) (e : String)
    (h : preprocessSteps env img = Except.error e) :
    (preprocess_image env img).1 = img ∧
      Event.warn (preprocessWarningMessage e) ∈ (preprocess_image env img).2 := by
  cases h1 : env.convertL img with
  | error e1 =>
    simp [preprocessSteps, h1] at h
    subst h
    simp [preprocess_image, h1]
  | ok g =>
    cases h2 : env.adaptiveThreshold thresholdArgsUsed g with
    | error e2 =>
      simp [preprocessSteps, h1, h2] at h
      subst h
      simp [preprocess_image, h1, h2]
    | ok t =>
      cases h3 : env.sharpen t with
      | error e3 =>
        simp [preprocessSteps, h1, h2, h3] at h
        subst h
        simp [preprocess_image, h1, h2, h3]
      | ok s2 => simp [preprocessSteps, h1, h2, h3] at h

theorem perform_ocr_on_image_fst (env : Env Img) (img : Img) :
    (perform_ocr_on_image env img).1 =
      (env.imageToString (preprocess_image env img).1).toOption := by
  simp only [perform_ocr_on_image]
  cases hc : env.imageToString (preprocess_image env img).1 with
  | ok t => simp [Except.toOption]
  | error e => cases e <;> simp [Except.toOption]

theorem perform_ocr_on_image_error_mem (env : Env Img) (img : Img)
    (h : (perform_ocr_on_image env img).1 = none) :
    ∃ m, Event.error m ∈ (perform_ocr_on_image env img).2 := by
  cases hc : env.imageToString (preprocess_image env img).1 with
  | ok t => simp [perform_ocr_on_image, hc] at h
  | error e =>
    cases e with
    | tesseractNotFound => exact ⟨tesseractNotFoundMessage, by simp [perform_ocr_on_image, hc]⟩
    | other m => exact ⟨ocrErrorMessage m, by simp [perform_ocr_on_image, hc]⟩

theorem pdfLoop_fst (env : Env Img) (total : Nat) (l : List Img) :
    ∀ (i : Nat) (acc : String),
    (pdfLoop env total l i acc).1 =
      acc ++ concatStrings ((l.enumFrom (i + 1)).map fun p => pageOutput env p.1 p.2) := by
  induction l with
  | nil =>
    intro i acc
    simp [pdfLoop, List.enumFrom, concatStrings]
  | cons hd tl ih =>
    intro i acc
    simp only [pdfLoop, List.enumFrom, List.map_cons, concatStrings,
      ih (i + 1) (acc ++ pageOutput env (i + 1) hd)]
    rw [String.append_assoc]

theorem ocrArgs_cons_statusText (m : String) (l : List (Event Img)) :
    ocrArgs (Event.statusText m :: l) = ocrArgs l := rfl

theorem ocrArgs_cons_progress (v : ℚ) (l : List (Event Img)) :
    ocrArgs (Event.progress v :: l) = ocrArgs l := rfl

theorem progressValues_cons_statusText (m : String) (l : List (Event Img)) :
    progressValues (Event.statusText m :: l) = progressValues l := rfl

theorem progressValues_cons_progress (v : ℚ) (l : List (Event Img)) :
    progressValues (Event.progress v :: l) = v :: progressValues l := rfl

theorem ocrArgs_pdfLoop (env : Env Img) (total : Nat) (l : List Img) :
    ∀ (i : Nat) (acc : String),
    ocrArgs (pdfLoop env total l i acc).2 = l.map fun im => (preprocess_image env im).1 := by
  induction l with
  | nil => intro i acc; simp [pdfLoop, ocrArgs]
  | cons hd tl ih =>
    intro i acc
    simp only [pdfLoop, List.map_cons]
    rw [ocrArgs_append, ocrArgs_cons_statusText, ocrArgs_cons_progress,
      ocrArgs_image, ih (i + 1) (acc ++ pageOutput env (i + 1) hd)]
    rfl

theorem progressValues_pdfLoop (env : Env Img) (total : Nat) (l : List Img) :
    ∀ (i : Nat) (acc : String),
    progressValues (pdfLoop env total l i acc).2 =
      (l.enumFrom (i + 1)).map fun p => ((p.1 : ℚ) / (total : ℚ)) := by
  induction l with
  | nil => intro i acc; simp [pdfLoop, progressValues, List.enumFrom]
  | cons hd tl ih =>
    intro i acc
    simp only [pdfLoop, List.enumFrom, List.map_cons]
    rw [progressValues_append, progressValues_cons_statusText, progressValues_cons_progress,
      progressValues_image, ih (i + 1) (acc ++ pageOutput env (i + 1) hd)]
    simp

theorem mem_pdfLoop_of_mem (env : Env Img) (total : Nat) (l : List Img) :
    ∀ (i : Nat) (acc : String) (img : Img) (e : Event Img),
    img ∈ l → e ∈ (perform_ocr_on_image env img).2 → e ∈ (pdfLoop env total l i acc).2 := by
  induction l with
  | nil => intro i acc img e h; simp at h
  | cons hd tl ih =>
    intro i acc img e hmem he
    simp only [pdfLoop]
    rcases List.mem_cons.mp hmem with rfl | htl
    · simp only [List.mem_append, List.mem_cons]
      exact Or.inl (Or.inr he)
    · have hrec := ih (i + 1) (acc ++ pageOutput env (i + 1) hd) img e htl he
      simp only [List.mem_append, List.mem_cons]
      exact Or.inr (Or.inr hrec)

theorem enumFrom_fst_map (f : Nat → ℚ) : ∀ (l : List Img) (k : Nat),
    (l.enumFrom k).map (fun p => f p.1) = (List.range l.length).map fun j => f (k + j) := by
  intro l
  induction l with
  | nil => intro k; simp [List.enumFrom]
  | cons hd tl ih =>
    intro k
    simp only [List.enumFrom, List.map_cons, List.length_cons, List.range_succ_eq_map,
      List.map_map, ih (k + 1)]
    congr 1
    apply List.map_congr_left
    intro a _
    simp only [Function.comp_apply]
    congr 1
    omega

theorem perform_ocr_on_pdf_fst_ok (env : Env Img) (b : List Nat) (images : List Img)
    (h : env.convertFromBytes b = Except.ok images) (hne : images ≠ []) :
    (perform_ocr_on_pdf env b).1 =
      some (concatStrings ((images.enumFrom 1).map fun p => pageOutput env p.1 p.2)) := by
  simp [perform_ocr_on_pdf, h, hne, pdfLoop_fst, List.isEmpty_iff]

theorem perform_ocr_on_pdf_snd_ok (env : Env Img) (b : List Nat) (images : List Img)
    (h : env.convertFromBytes b = Except.ok images) (hne : images ≠ []) :
    (perform_ocr_on_pdf env b).2 =
      Event.convertCall :: Event.progressInit ::
        ((pdfLoop env images.length images 0 "").2 ++
          [Event.statusText "PDF Processing Complete."]) := by
  simp [perform_ocr_on_pdf, h, hne, List.isEmpty_iff]

theorem chain_lt_enumFrom (n : Nat) (hn : 0 < n) (l : List Img) :
    ∀ (k : Nat),
    List.Chain' (fun a b => a < b) ((l.enumFrom k).map fun p => ((p.1 : ℚ) / (n : ℚ))) := by
  induction l with
  | nil => intro k; simp [List.enumFrom]
  | cons hd tl ih =>
    intro k
    cases tl with
    | nil => simp [List.enumFrom]
    | cons hd2 tl2 =>
      have h2 := ih (k + 1)
      simp only [List.enumFrom, List.map_cons] at h2 ⊢
      rw [List.chain'_cons]
      refine ⟨?_, h2⟩
      have hc : (0 : ℚ) < (n : ℚ) := by exact_mod_cast hn
      rw [div_lt_div_iff_of_pos_right hc]
      exact_mod_cast Nat.lt_succ_self k

theorem getLast_map_range (g : Nat → ℚ) (n : Nat) (hn : 0 < n) :
    ((List.range n).map g).getLast? = some (g (n - 1)) := by
  obtain ⟨m, rfl⟩ : ∃ m, n = m + 1 := ⟨n - 1, by omega⟩
  rw [List.range_succ, List.map_append]
  simp

theorem thresholdArgsList_preprocess (env : Env Img) (img : Img) :
    thresholdArgsList (preprocess_image env img).2 = [] ∨
      thresholdArgsList (preprocess_image env img).2 = [thresholdArgsUsed] := by
  unfold preprocess_image
  repeat' split
  all_goals first
    | exact Or.inl rfl
    | exact Or.inr rfl

theorem ocrArgs_cons_convertCall (l : List (Event Img)) :
    ocrArgs (Event.convertCall :: l) = ocrArgs l := rfl

theorem ocrArgs_cons_progressInit (l : List (Event Img)) :
    ocrArgs (Event.progressInit :: l) = ocrArgs l := rfl

theorem progressValues_cons_convertCall (l : List (Event Img)) :
    progressValues (Event.convertCall :: l) = progressValues l := rfl

theorem progressValues_cons_progressInit (l : List (Event Img)) :
    progressValues (Event.progressInit :: l) = progressValues l := rfl

theorem ocrArgs_pdf (env : Env Img) (b : List Nat) (images : List Img)
    (h : env.convertFromBytes b = Except.ok images) (hne : images ≠ []) :
    ocrArgs (perform_ocr_on_pdf env b).2 =
      images.map fun im => (preprocess_image env im).1 := by
  rw [perform_ocr_on_pdf_snd_ok env b images h hne, ocrArgs_cons_convertCall,
    ocrArgs_cons_progressInit, ocrArgs_append, ocrArgs_pdfLoop env images.length images 0 ""]
  simp [ocrArgs]

theorem progressValues_pdf (env : Env Img) (b : List Nat) (images : List Img)
    (h : env.convertFromBytes b = Except.ok images) (hne : images ≠ []) :
    progressValues (perform_ocr_on_pdf env b).2 =
      (images.enumFrom 1).map fun p => ((p.1 : ℚ) / (images.length : ℚ)) := by
  rw [perform_ocr_on_pdf_snd_ok env b images h hne, progressValues_cons_convertCall,
    progressValues_cons_progressInit, progressValues_append,
    progressValues_pdfLoop env images.length images 0 ""]
  simp [progressValues]

/-! ### The claims -/

/-- C1: for every PDF whose rasterization yields a non-empty list of page
images, `perform_ocr_on_pdf` returns exactly the concatenation, in
ascending page order 1..n, of one text block per page, where the block
for page i is `pageOutput` of that page (its page-i header followed by
the OCR output of that page, or the page-i placeholder line); no page is
skipped, duplicated, or reordered. -/
theorem C1_pdf_output_is_ordered_concat (env : Env Img) (b : List Nat) (images : List Img)
    (h : env.convertFromBytes b = Except.ok images) (hne : images ≠ []) :
    (perform_ocr_on_pdf env b).1 =
      some (concatStrings ((images.enumFrom 1).map fun p => pageOutput env p.1 p.2)) :=
  perform_ocr_on_pdf_fst_ok env b images h hne

/-- Witness for C1 at a concrete two-page PDF. -/
theorem C1_witness :
    envOK.convertFromBytes [5, 6] = Except.ok [5, 6] ∧ ([5, 6] : List Nat) ≠ [] ∧
    (perform_ocr_on_pdf envOK [5, 6]).1 =
      some (concatStrings ((List.enumFrom 1 ([5, 6] : List Nat)).map
        fun p => pageOutput envOK p.1 p.2)) :=
  ⟨rfl, by decide, C1_pdf_output_is_ordered_concat envOK [5, 6] [5, 6] rfl (by decide)⟩

/-- C2: when OCR of one PDF page fails (returns `None`), the run is not
aborted: the final result is still the full ordered per-page
concatenation, the block of the failing page is the placeholder line
naming that page, and an error message was shown.  The index of the page is `i`
(0-based), so the page number in the placeholder is `i + 1`. -/
theorem C2_page_failure_isolated (env : Env Img) (b : List Nat) (images : List Img)
    (i : Nat) (h : env.convertFromBytes b = Except.ok images) (hi : i < images.length)
    (hfail : (perform_ocr_on_image env (images.get ⟨i, hi⟩)).1 = none) :
    (perform_ocr_on_pdf env b).1 =
      some (concatStrings ((images.enumFrom 1).map fun p => pageOutput env p.1 p.2)) ∧
    pageOutput env (i + 1) (images.get ⟨i, hi⟩) =
      "--- Page " ++ toString (i + 1) ++ " (OCR Failed or No Text Detected) ---\n\n" ∧
    (∃ m, Event.error m ∈ (perform_ocr_on_pdf env b).2) := by
  have hne : images ≠ [] := by
    intro hcon
    subst hcon
    simp at hi
  refine ⟨perform_ocr_on_pdf_fst_ok env b images h hne, ?_, ?_⟩
  · have hfail2 : (perform_ocr_on_image env images[i]).1 = none := hfail
    unfold pageOutput
    simp [hfail2, optTruthy]
  · obtain ⟨m, hm⟩ := perform_ocr_on_image_error_mem env _ hfail
    refine ⟨m, ?_⟩
    rw [perform_ocr_on_pdf_snd_ok env b images h hne]
    have hmem0 : images.get ⟨i, hi⟩ ∈ images := images.get_mem _ _
    have hx := mem_pdfLoop_of_mem env images.length images 0 "" _ _ hmem0 hm
    simp only [List.mem_cons, List.mem_append]
    exact Or.inr (Or.inr (Or.inl hx))

/-- Witness for C2: a 3-page PDF whose middle page fails OCR. -/
theorem C2_witness :
    (perform_ocr_on_pdf envOcrFailPage2 [10, 11, 12]).1 =
      some (concatStrings ((List.enumFrom 1 ([10, 11, 12] : List Nat)).map
        fun p => pageOutput envOcrFailPage2 p.1 p.2)) ∧
    pageOutput envOcrFailPage2 2 (([10, 11, 12] : List Nat).get ⟨1, by decide⟩) =
      "--- Page " ++ toString 2 ++ " (OCR Failed or No Text Detected) ---\n\n" ∧
    (∃ m, Event.error m ∈ (perform_ocr_on_pdf envOcrFailPage2 [10, 11, 12]).2) :=
  C2_page_failure_isolated envOcrFailPage2 [10, 11, 12] [10, 11, 12] 1 rfl (by decide)
    (by decide)

/-- C3: when no step raises, `preprocess_image` applies exactly three
transformations in this fixed order — grayscale conversion, adaptive
thresholding, then the sharpen filter — producing the sharpened image and
making no other library call; no step depends on the image content. -/
theorem C3_preprocess_three_fixed_steps (env : Env Img) (img g t s : Img)
    (hg : env.convertL img = Except.ok g)
    (ht : env.adaptiveThreshold thresholdArgsUsed g = Except.ok t)
    (hs : env.sharpen t = Except.ok s) :
    preprocess_image env img =
      (s, [Event.grayscaleCall img, Event.thresholdCall thresholdArgsUsed g,
           Event.sharpenCall t]) := by
  simp [preprocess_image, hg, ht, hs]

/-- Witness for C3 at a concrete image under `envOK`. -/
theorem C3_witness :
    envOK.convertL 0 = Except.ok 1 ∧
    envOK.adaptiveThreshold thresholdArgsUsed 1 = Except.ok 2 ∧
    envOK.sharpen 2 = Except.ok 5 ∧
    preprocess_image envOK 0 =
      (5, [Event.grayscaleCall 0, Event.thresholdCall thresholdArgsUsed 1,
           Event.sharpenCall 2]) :=
  ⟨rfl, rfl, rfl, C3_preprocess_three_fixed_steps envOK 0 1 2 5 rfl rfl rfl⟩

/-- C4: `perform_ocr_on_image` either returns the string the OCR engine
produced on the preprocessed image, or — when the engine raises any
exception — shows an error message and returns `None`; it is total, so no
exception ever reaches its caller. -/
theorem C4_ocr_image_never_raises (env : Env Img) (img : Img) :
    (∃ t, env.imageToString (preprocess_image env img).1 = Except.ok t ∧
        (perform_ocr_on_image env img).1 = some t) ∨
    ((perform_ocr_on_image env img).1 = none ∧
      ∃ m, Event.error m ∈ (perform_ocr_on_image env img).2) := by
  cases hc : env.imageToString (preprocess_image env img).1 with
  | ok t =>
    refine Or.inl ⟨t, rfl, ?_⟩
    rw [perform_ocr_on_image_fst, hc]
    rfl
  | error e =>
    have hnone : (perform_ocr_on_image env img).1 = none := by
      rw [perform_ocr_on_image_fst, hc]
      rfl
    exact Or.inr ⟨hnone, perform_ocr_on_image_error_mem env img hnone⟩

/-- C5 counterexample: the parenthetical of the claim, "OCR is never invoked on
the raw decoded image" is false.  Under `envPreFail` grayscale conversion
raises, so `preprocess_image` returns the raw image `0` unchanged
(`preprocessSteps` is `.error`), and the one OCR call receives exactly
the raw decoded image `0`. -/
theorem C5_counterexample :
    ocrArgs (perform_ocr_on_image envPreFail 0).2 = [0] ∧
    preprocessSteps envPreFail 0 = Except.error "gray boom" := by
  constructor
  · rfl
  · rfl

/-- C5 (amended): every image or PDF page handed to the OCR engine is
first passed through `preprocess_image`, unconditionally: each OCR call
receives exactly the return value of `preprocess_image` — the preprocessed
image, except that when preprocessing fails internally this value is the
original raw image. -/
theorem C5_amended_ocr_on_preprocess_result (env : Env Img) (img : Img) (b : List Nat)
    (images : List Img) (h : env.convertFromBytes b = Except.ok images) :
    ocrArgs (perform_ocr_on_image env img).2 = [(preprocess_image env img).1] ∧
    ocrArgs (perform_ocr_on_pdf env b).2 =
      images.map fun im => (preprocess_image env im).1 := by
  refine ⟨ocrArgs_image env img, ?_⟩
  by_cases hne : images = []
  · subst hne
    simp [perform_ocr_on_pdf, h, ocrArgs]
  · exact ocrArgs_pdf env b images h hne

/-- Witness for the amended C5 at a concrete image and one-page PDF. -/
theorem C5_amended_witness :
    ocrArgs (perform_ocr_on_image envOK 7).2 = [(preprocess_image envOK 7).1] ∧
    ocrArgs (perform_ocr_on_pdf envOK [4]).2 =
      ([4] : List Nat).map fun im => (preprocess_image envOK im).1 :=
  C5_amended_ocr_on_preprocess_result envOK 7 [4] [4] rfl

/-- C6: for an n-page PDF the progress bar receives exactly one update
per page, the update after the page with 0-based index i having value
(i+1)/n; the sequence of update values is strictly increasing and its
last element is 1; and the OCR engine is called exactly once per page (n
calls in total, no retries). -/
theorem C6_progress_once_per_page (env : Env Img) (b : List Nat) (images : List Img)
    (h : env.convertFromBytes b = Except.ok images) (hne : images ≠ []) :
    progressValues (perform_ocr_on_pdf env b).2 =
      ((List.range images.length).map fun i : Nat => ((i : ℚ) + 1) / (images.length : ℚ)) ∧
    List.Chain' (fun a b => a < b) (progressValues (perform_ocr_on_pdf env b).2) ∧
    (progressValues (perform_ocr_on_pdf env b).2).getLast? = some 1 ∧
    (ocrArgs (perform_ocr_on_pdf env b).2).length = images.length := by
  have hn : 0 < images.length := List.length_pos.mpr hne
  have henum := progressValues_pdf env b images h hne
  have hrange : progressValues (perform_ocr_on_pdf env b).2 =
      (List.range images.length).map fun j => (((1 + j : Nat) : ℚ) / (images.length : ℚ)) := by
    rw [henum]
    exact enumFrom_fst_map (fun m => ((m : ℚ) / (images.length : ℚ))) images 1
  have hforms : ((List.range images.length).map
        fun j => (((1 + j : Nat) : ℚ) / (images.length : ℚ))) =
      ((List.range images.length).map fun i : Nat => ((i : ℚ) + 1) / (images.length : ℚ)) := by
    apply List.map_congr_left
    intro a _
    push_cast
    ring_nf
  refine ⟨hrange.trans hforms, ?_, ?_, ?_⟩
  · rw [henum]
    exact chain_lt_enumFrom images.length hn images 1
  · rw [hrange.trans hforms,
      getLast_map_range (fun i : Nat => ((i : ℚ) + 1) / (images.length : ℚ)) images.length hn]
    have : (((images.length - 1 : Nat) : ℚ) + 1) / (images.length : ℚ) = 1 := by
      rw [Nat.cast_sub (by omega : 1 ≤ images.length)]
      push_cast
      field_simp
    rw [this]
  · rw [ocrArgs_pdf env b images h hne, List.length_map]

/-- Witness for C6 at a concrete two-page PDF. -/
theorem C6_witness :
    progressValues (perform_ocr_on_pdf envOK [4, 5]).2 =
      ((List.range ([4, 5] : List Nat).length).map
        fun i : Nat => ((i : ℚ) + 1) / ((([4, 5] : List Nat).length : Nat) : ℚ)) ∧
    List.Chain' (fun a b => a < b) (progressValues (perform_ocr_on_pdf envOK [4, 5]).2) ∧
    (progressValues (perform_ocr_on_pdf envOK [4, 5]).2).getLast? = some 1 ∧
    (ocrArgs (perform_ocr_on_pdf envOK [4, 5]).2).length = ([4, 5] : List Nat).length :=
  C6_progress_once_per_page envOK [4, 5] [4, 5] rfl (by decide)

/-- C7: the adaptive thresholding in `preprocess_image` is delegated to a
single external-library call with the fixed arguments (255, Gaussian
method, binary threshold, block size 11, constant 2): every threshold
call in the trace carries exactly these arguments, at most one such call
happens, and whenever grayscale conversion succeeds the call is made on
the grayscale image with these arguments — never with input-dependent
parameters. -/
theorem C7_threshold_single_fixed_call (env : Env Img) (img : Img) :
    thresholdArgsUsed =
      { maxValue := 255, adaptiveMethod := AdaptiveMethod.gaussianC,
        thresholdType := ThresholdType.binary, blockSize := 11, c := 2 } ∧
    (∀ a ∈ thresholdArgsList (preprocess_image env img).2, a = thresholdArgsUsed) ∧
    (thresholdArgsList (preprocess_image env img).2).length ≤ 1 ∧
    (∀ g, env.convertL img = Except.ok g →
      Event.thresholdCall thresholdArgsUsed g ∈ (preprocess_image env img).2) := by
  refine ⟨rfl, ?_, ?_, ?_⟩
  · intro a ha
    rcases thresholdArgsList_preprocess env img with hl | hl <;> rw [hl] at ha <;> simp at ha
    exact ha
  · rcases thresholdArgsList_preprocess env img with hl | hl <;> simp [hl]
  · intro g hg
    cases h2 : env.adaptiveThreshold thresholdArgsUsed g with
    | error e2 => simp [preprocess_image, hg, h2]
    | ok t =>
      cases h3 : env.sharpen t with
      | error e3 => simp [preprocess_image, hg, h2, h3]
      | ok s2 => simp [preprocess_image, hg, h2, h3]

/-- Witness for C7: the fixed argument tuple at a concrete run. -/
theorem C7_witness :
    thresholdArgsUsed =
      { maxValue := 255, adaptiveMethod := AdaptiveMethod.gaussianC,
        thresholdType := ThresholdType.binary, blockSize := 11, c := 2 } ∧
    Event.thresholdCall thresholdArgsUsed 1 ∈ (preprocess_image envOK (0 : Nat)).2 :=
  ⟨(C7_threshold_single_fixed_call envOK (0 : Nat)).1,
    (C7_threshold_single_fixed_call envOK (0 : Nat)).2.2.2 1 rfl⟩

/-- C8: if any step of the preprocessing pipeline raises (grayscale,
threshold, or sharpen — i.e. `preprocessSteps` is `.error`),
`preprocess_image` shows a warning and returns the original input image
unchanged, and OCR then runs on that unpreprocessed image instead of
failing. -/
theorem C8_preprocess_fail_warns_and_returns_original (env : Env Img) (img : Img)
    (e : String) (h : preprocessSteps env img = Except.error e) :
    (preprocess_image env img).1 = img ∧
    Event.warn (preprocessWarningMessage e) ∈ (preprocess_image env img).2 ∧
    ocrArgs (perform_ocr_on_image env img).2 = [img] := by
  obtain ⟨h1, h2⟩ := preprocess_image_of_steps_error env img e h
  refine ⟨h1, h2, ?_⟩
  rw [ocrArgs_image, h1]

/-- Witness for C8: grayscale conversion raising on image `9`. -/
theorem C8_witness :
    preprocessSteps envPreFail 9 = Except.error "gray boom" ∧
    ((preprocess_image envPreFail 9).1 = 9 ∧
      Event.warn (preprocessWarningMessage "gray boom") ∈ (preprocess_image envPreFail 9).2 ∧
      ocrArgs (perform_ocr_on_image envPreFail 9).2 = [9]) :=
  ⟨rfl, C8_preprocess_fail_warns_and_returns_original envPreFail 9 "gray boom" rfl⟩

/-- C9: when PDF rasterization yields an empty list of page images,
`perform_ocr_on_pdf` shows the warning and returns `None` — in
particular, never the empty string. -/
theorem C9_empty_pdf_warns_and_returns_none (env : Env Img) (b : List Nat)
    (h : env.convertFromBytes b = Except.ok []) :
    (perform_ocr_on_pdf env b).1 = none ∧
    Event.warn emptyPdfWarning ∈ (perform_ocr_on_pdf env b).2 ∧
    (perform_ocr_on_pdf env b).1 ≠ some "" := by
  simp [perform_ocr_on_pdf, h]

/-- Witness for C9: a PDF whose rasterization yields no pages. -/
theorem C9_witness :
    envEmptyPdf.convertFromBytes [1, 2, 3] = Except.ok [] ∧
    ((perform_ocr_on_pdf envEmptyPdf [1, 2, 3]).1 = none ∧
      Event.warn emptyPdfWarning ∈ (perform_ocr_on_pdf envEmptyPdf [1, 2, 3]).2 ∧
      (perform_ocr_on_pdf envEmptyPdf [1, 2, 3]).1 ≠ some "") :=
  ⟨rfl, C9_empty_pdf_warns_and_returns_none envEmptyPdf [1, 2, 3] rfl⟩

/-- C10: the result-display branch that warns "no text was detected" when
`extracted_text == ""` is unreachable: a `Some ""` result is not `None`
and is rendered in the text area, and the `None` case fails the `== ""`
comparison (in Python `None == ""` is `False`), so no value of
`extracted_text` ever reaches the warning. -/
theorem C10_no_text_warning_unreachable :
    (∀ o : Option String, displayResult o ≠ DisplayAction.warnedNoText) ∧
    displayResult (some "") = DisplayAction.rendered "" := by
  constructor
  · intro o
    cases o with
    | none => simp [displayResult, pyEqEmptyString]
    | some t => simp [displayResult]
  · rfl
